import Mathlib

/-!
Verification of the general-mq / sylvia-iot-sdk messaging core.

This file is a shallow embedding, in Lean 4, of the JavaScript sources:

- general-mq/lib/constants.js        (statuses, error kinds, queue-name pattern)
- general-mq/lib/mqtt-connection.js  (MqttConnection state machine, packet handlers)
- general-mq/lib/mqtt-queue.js       (MqttQueue construction, connect, sendMsg, topic)
- the AMQP connection driver         (AmqpConnection state machine)
- sdk/mq/lib.js                      (connection pool, data-queue factory, NetworkMgr)

JavaScript objects become Lean structures; mutation becomes explicit state
passing; node-style callbacks become recorded effects (a callback count, an
emission list, a settlement list); a JS value that may be `undefined` becomes
an `Option`.  Asynchronous completions (broker close callbacks, `process.nextTick`)
are modelled as running to completion, matching the single-threaded cooperative
scheduling model of the source.
-/

namespace GeneralMq

/-- Connection/queue status, from general-mq/lib/constants.js `Status`. -/
inductive Status
  | Closing
  | Closed
  | Connecting
  | Connected
  | Disconnected
deriving DecidableEq, Repr

/-- general-mq error kinds, from general-mq/lib/constants.js `Errors`. -/
inductive GmqError
  | NoMsgHandler
  | NotConnected
  | QueueIsReceiver
deriving DecidableEq, Repr

/-- A character allowed in a queue-name segment: the class [a-z0-9_-]. -/
def isNameChar (c : Char) : Bool :=
  (Char.ofNat 97 ≤ c && c ≤ Char.ofNat 122) ||
  (Char.ofNat 48 ≤ c && c ≤ Char.ofNat 57) ||
  c == Char.ofNat 95 || c == Char.ofNat 45

/-- Splitting a character list at every dot; a trailing or leading dot, or two
    in a row, yield an empty segment, exactly as String.prototype.split does. -/
def splitOnDot : List Char → List (List Char)
  | [] => [[]]
  | c :: rest =>
    match splitOnDot rest with
    | [] => []
    | p :: ps => if c == Char.ofNat 46 then [] :: p :: ps else (c :: p) :: ps

/-- The queue-name regex of constants.js,
    QueuePattern = /^[a-z0-9_-]+([.]{1}[a-z0-9_-]+)*$/ : splitting on the dot
    must give only non-empty segments of name characters. -/
def queuePattern (s : String) : Bool :=
  (splitOnDot s.data).all (fun p => !p.isEmpty && p.all isNameChar)

/-- JS template-literal rendering of a possibly-undefined string value:
    an undefined value renders as the literal text "undefined". -/
def jsStr : Option String → String
  | none => "undefined"
  | some s => s

/-- JS truthiness of a possibly-undefined string: undefined and "" are falsy. -/
def strTruthy : Option String → Bool
  | none => false
  | some s => !s.isEmpty

/-- Models JS String.prototype.endsWith as a character-list suffix test. -/
def jsEndsWith (s suf : String) : Bool :=
  List.isSuffixOf suf.data s.data

/-! ## MqttQueue (general-mq/lib/mqtt-queue.js)

The constructor's option record.  Fields that JS allows to be `undefined` are
`Option`s.  The `typeof` checks of the constructor are made unrepresentable by
the types of the fields; the value checks (name pattern, empty sharedPrefix,
negative reconnectMillis) are embedded below.  `reconnectMillis` is an `Int`
so that the sign check of the source is meaningful. -/

structure MqttQueueOptions where
  name : String
  isRecv : Bool
  reliable : Bool
  broadcast : Bool
  reconnectMillis : Option Int := none
  sharedPrefix : Option String := none
deriving DecidableEq, Repr

/-- The option record the constructor stores in `this.#opts` after validation
    (mqtt-queue.js lines 89-96): `reconnectMillis` is defaulted with the JS
    `||` operator, so both `undefined` and `0` become `DEF_RECONN = 1000`. -/
structure MqttStoredOpts where
  name : String
  isRecv : Bool
  reliable : Bool
  broadcast : Bool
  reconnectMillis : Int
  sharedPrefix : Option String
deriving DecidableEq, Repr

/-- The MqttQueue constructor (mqtt-queue.js lines 61-103): validation order as
    in the source; on success returns the stored options (the new queue starts
    with `#status = Closed` and no message handler). -/
def mqttQueueNew (opts : MqttQueueOptions) : Except String MqttStoredOpts :=
  if !queuePattern opts.name then
    .error "`name` is not match pattern"
  else if (match opts.sharedPrefix with | some p => p.isEmpty | none => false) then
    .error "`sharedPrefix` must be a string"
  else if (match opts.reconnectMillis with | some r => decide (r < 0) | none => false) then
    .error "`reconnectMillis` must be a positive integer"
  else
    .ok { name := opts.name
          isRecv := opts.isRecv
          reliable := opts.reliable
          broadcast := opts.broadcast
          reconnectMillis :=
            match opts.reconnectMillis with
            | none => 1000
            | some v => if v == 0 then 1000 else v
          sharedPrefix := opts.sharedPrefix }

/-- MqttQueue#topic (mqtt-queue.js lines 351-356).  The source builds the
    unicast-receiver topic with a JS template literal, so an undefined
    sharedPrefix renders as the text "undefined". -/
def MqttStoredOpts.topic (o : MqttStoredOpts) : String :=
  if o.isRecv && !o.broadcast then jsStr o.sharedPrefix ++ o.name
  else o.name

/-- The mutable part of an MqttQueue: its status and whether `setMsgHandler`
    has installed a handler (`#msgHandler` is initialized to null and
    `setMsgHandler` only accepts functions, so the flag never goes back to
    false). -/
structure MqttQueueState where
  status : Status
  hasMsgHandler : Bool
deriving DecidableEq, Repr

/-- What one call of MqttQueue#connect (mqtt-queue.js lines 151-172) does:
    `thrown` is the synchronously thrown error, if any (a JS throw happens
    before any state mutation); `registered` is the `(name, topic, reliable)`
    triple handed to `MqttConnection.addPacketHandler` when the queue is a
    receiver; `emitted` records the status events emitted by this call. -/
structure MqttConnectOutcome where
  thrown : Option GmqError
  state : MqttQueueState
  registered : Option (String × String × Bool)
  emitted : List Status
deriving DecidableEq, Repr

/-- MqttQueue#connect (mqtt-queue.js lines 151-172). -/
def mqttQueueConnect (o : MqttStoredOpts) (st : MqttQueueState) : MqttConnectOutcome :=
  if o.isRecv && !st.hasMsgHandler then
    { thrown := some GmqError.NoMsgHandler, state := st, registered := none, emitted := [] }
  else if st.status != Status.Closed && st.status != Status.Closing then
    { thrown := none, state := st, registered := none, emitted := [] }
  else
    { thrown := none
      state := { st with status := Status.Connecting }
      registered := if o.isRecv then some (o.name, o.topic, o.reliable) else none
      emitted := [Status.Connecting] }

/-- What one pass of MqttQueue#innerConnect (mqtt-queue.js lines 287-330) does:
    `subscribed` is the `(topic, qos)` pair handed to `rawConn.subscribe` for a
    receiver; `emitted` records the status events.  `connStatus` and `hasRaw`
    are the underlying connection's status and raw-client presence, and
    `subscribeOk` is the result the broker reports to the subscribe callback.
    The transient `#connProcessing` flag is true only inside a single pass, so
    the atomic model leaves it out. -/
structure MqttInnerConnectOutcome where
  state : MqttQueueState
  subscribed : Option (String × Nat)
  emitted : List Status
deriving DecidableEq, Repr

/-- MqttQueue#innerConnect (mqtt-queue.js lines 287-330), one pass run to the
    subscribe callback. -/
def mqttInnerConnect (o : MqttStoredOpts) (st : MqttQueueState) (connStatus : Status)
    (hasRaw : Bool) (subscribeOk : Bool) : MqttInnerConnectOutcome :=
  if st.status != Status.Connecting then
    { state := st, subscribed := none, emitted := [] }
  else if connStatus != Status.Connected then
    { state := st, subscribed := none, emitted := [] }
  else if !hasRaw then
    { state := st, subscribed := none, emitted := [] }
  else if !o.isRecv then
    { state := { st with status := Status.Connected }
      subscribed := none
      emitted := [Status.Connected] }
  else if subscribeOk then
    { state := { st with status := Status.Connected }
      subscribed := some (o.topic, if o.reliable then 1 else 0)
      emitted := [Status.Connected] }
  else
    { state := st
      subscribed := some (o.topic, if o.reliable then 1 else 0)
      emitted := [] }

/-- The outcome of MqttQueue#sendMsg (mqtt-queue.js lines 224-247): either the
    callback is completed with an error on the next tick, or the payload is
    handed to `rawConn.publish` on the queue's topic with the queue's QoS. -/
inductive SendOutcome
  | callbackErr (e : GmqError)
  | published (topic : String) (qos : Nat)
deriving DecidableEq, Repr

/-- MqttQueue#sendMsg (mqtt-queue.js lines 224-247).  The payload and callback
    type checks are unrepresentable in the typed embedding; the status check
    comes before the direction check in the source. -/
def mqttQueueSendMsg (o : MqttStoredOpts) (st : MqttQueueState) : SendOutcome :=
  if st.status != Status.Connected then
    SendOutcome.callbackErr GmqError.NotConnected
  else if o.isRecv then
    SendOutcome.callbackErr GmqError.QueueIsReceiver
  else
    SendOutcome.published o.topic (if o.reliable then 1 else 0)

/-! ## MqttConnection packet-handler registry (general-mq/lib/mqtt-connection.js) -/

/-- A registered packet handler (mqtt-connection.js `PacketHandler`), without
    the JS closure: the topic and QoS that were recorded for a queue name. -/
structure PacketHandler where
  topic : String
  qos : Nat
deriving DecidableEq, Repr

/-- Map.set on an association list keyed by queue name. -/
def mapSet (m : List (String × PacketHandler)) (k : String) (v : PacketHandler) :
    List (String × PacketHandler) :=
  if m.any (fun e => e.fst == k) then
    m.map (fun e => if e.fst == k then (k, v) else e)
  else
    m ++ [(k, v)]

/-- MqttConnection.addPacketHandler (mqtt-connection.js lines 201-217):
    validates the queue name against the pattern and requires the topic to be a
    non-empty string ending with the name, then records `{topic, qos}`. -/
def addPacketHandler (handlers : List (String × PacketHandler)) (name topic : String)
    (reliable : Bool) : Except String (List (String × PacketHandler)) :=
  if !queuePattern name then
    .error "`name` is not a valid queue name"
  else if topic.isEmpty || !jsEndsWith topic name then
    .error "`topic` is not a valid topic"
  else
    .ok (mapSet handlers name { topic := topic, qos := if reliable then 1 else 0 })

/-! ## AmqpConnection state machine (the AMQP connection driver)

The observable state of an `AmqpConnection`: `#status`, whether `#conn` (the
raw amqplib connection) is non-null, and whether a dial started by
`#innerConnect` is outstanding (its `amqplib.connect` callback has not fired
yet).  Each driver callback is an event; `close(callback)` is modelled run to
completion, with the raw connection's close callback assumed to fire, as the
cooperative scheduling model of the source prescribes. -/

structure AmqpConnState where
  status : Status
  hasConn : Bool
  dialing : Bool
deriving DecidableEq, Repr

/-- The events the AmqpConnection reacts to: a `connect()` call, the dial
    callback of `amqplib.connect` firing with success or with an error, and the
    raw connection's `close` event. -/
inductive AmqpEvent
  | connectCall
  | dialOk
  | dialErr
  | closeEvt
deriving DecidableEq, Repr

/-- The freshly constructed AmqpConnection: `#status = Closed`, `#conn = null`. -/
def amqpInit : AmqpConnState :=
  { status := Status.Closed, hasConn := false, dialing := false }

/-- One step of the AmqpConnection state machine.

    - `connectCall` (lines 104-113): a no-op unless the status is Closed or
      Closing; otherwise the status becomes Connecting and `#innerConnect`
      starts a dial.
    - `dialOk` (lines 169-181): the dial callback installs the raw connection
      and sets Connected.
    - `dialErr`: the dial callback schedules a retry, so a dial stays
      outstanding.
    - `closeEvt` (`#onClose`, lines 184-195): the raw connection is dropped;
      unless the status is Closing or Closed, the status becomes Connecting and
      a new dial starts. -/
def amqpStep (s : AmqpConnState) : AmqpEvent → AmqpConnState
  | AmqpEvent.connectCall =>
    if s.status != Status.Closed && s.status != Status.Closing then s
    else { s with status := Status.Connecting, dialing := true }
  | AmqpEvent.dialOk =>
    if s.dialing then { status := Status.Connected, hasConn := true, dialing := false }
    else s
  | AmqpEvent.dialErr => s
  | AmqpEvent.closeEvt =>
    if !s.hasConn then s
    else if s.status != Status.Closing && s.status != Status.Closed then
      { status := Status.Connecting, hasConn := false, dialing := true }
    else
      { s with hasConn := false }

/-- AmqpConnection.close (lines 121-151), run to completion, with the number of
    times the supplied callback is invoked.  When `#conn` is null the method
    only schedules the callback on the next tick and returns — the status is
    left untouched.  Otherwise the status goes Closing, `#conn.close` fires its
    callback, the raw connection is dropped and the status goes Closed. -/
def amqpClose (s : AmqpConnState) : AmqpConnState × Nat :=
  if !s.hasConn then (s, 1)
  else ({ status := Status.Closed, hasConn := false, dialing := s.dialing }, 1)

/-- The AmqpConnection states reachable from construction through driver events
    and `close()` calls. -/
inductive AmqpReachable : AmqpConnState → Prop
  | init : AmqpReachable amqpInit
  | step (s : AmqpConnState) (e : AmqpEvent) : AmqpReachable s → AmqpReachable (amqpStep s e)
  | close (s : AmqpConnState) : AmqpReachable s → AmqpReachable (amqpClose s).fst

/-! ## MqttConnection state machine (general-mq/lib/mqtt-connection.js)

Unlike the AMQP driver, `#innerConnect` (lines 233-253) installs the raw MQTT
client synchronously (`mqtt.connect` returns immediately), so there is no
outstanding-dial flag: whenever the status leaves Closed through `connect()`
the raw client exists. -/

structure MqttConnState where
  status : Status
  hasConn : Bool
deriving DecidableEq, Repr

/-- The events the MqttConnection reacts to: a `connect()` call and the raw
    client's `connect`, `close`/`offline` and `reconnect` events. -/
inductive MqttEvent
  | connectCall
  | connectEvt
  | closeEvt
  | reconnectEvt
deriving DecidableEq, Repr

/-- The freshly constructed MqttConnection: `#status = Closed`, `#conn = null`. -/
def mqttInit : MqttConnState :=
  { status := Status.Closed, hasConn := false }

/-- One step of the MqttConnection state machine.

    - `connectCall` (lines 132-141): a no-op unless Closed or Closing;
      otherwise Connecting, and `#innerConnect` creates the raw client.
    - `connectEvt` (`#onConnect`, lines 268-273): Connected while the client
      exists.
    - `closeEvt` (`#onClose`, lines 255-266): the client is dropped; unless
      Closing or Closed the status becomes Connecting and `#innerConnect`
      recreates the client.
    - `reconnectEvt` (`#onReconnect`, lines 288-294): Connecting unless Closing
      or Closed; the library reconnects by itself, the client stays. -/
def mqttConnStep (s : MqttConnState) : MqttEvent → MqttConnState
  | MqttEvent.connectCall =>
    if s.status != Status.Closed && s.status != Status.Closing then s
    else { status := Status.Connecting, hasConn := true }
  | MqttEvent.connectEvt =>
    if s.hasConn then { s with status := Status.Connected } else s
  | MqttEvent.closeEvt =>
    if s.status != Status.Closing && s.status != Status.Closed then
      { status := Status.Connecting, hasConn := true }
    else
      { s with hasConn := false }
  | MqttEvent.reconnectEvt =>
    if s.status != Status.Closing && s.status != Status.Closed then
      { s with status := Status.Connecting }
    else s

/-- MqttConnection.close (lines 149-179), run to completion, with the number of
    times the supplied callback is invoked.  The structure is the same as the
    AMQP close: a null `#conn` short-circuits to the callback without touching
    the status. -/
def mqttConnClose (s : MqttConnState) : MqttConnState × Nat :=
  if !s.hasConn then (s, 1)
  else ({ status := Status.Closed, hasConn := false }, 1)

/-- The MqttConnection states reachable from construction through driver events
    and `close()` calls. -/
inductive MqttReachable : MqttConnState → Prop
  | init : MqttReachable mqttInit
  | step (s : MqttConnState) (e : MqttEvent) : MqttReachable s → MqttReachable (mqttConnStep s e)
  | close (s : MqttConnState) : MqttReachable s → MqttReachable (mqttConnClose s).fst

end GeneralMq

namespace SdkMq

open GeneralMq

/-! ## The connection pool (sdk/mq/lib.js lines 87-177)

A pool entry is the `Connection` wrapper of sdk/mq/lib.js: the shared
general-mq connection plus its reference count.  Only the count is relevant to
the pool logic, so the pool is an association list from the host-URI key to the
entry's `count` field (a JS number that the code may drive negative, hence
`Int`). -/

/-- Map.get on the pool. -/
def poolGet (pool : List (String × Int)) (uri : String) : Option Int :=
  match pool.find? (fun e => e.fst == uri) with
  | none => none
  | some e => some e.snd

/-- Map.delete on the pool. -/
def poolDelete (pool : List (String × Int)) (uri : String) : List (String × Int) :=
  pool.eraseP (fun e => e.fst == uri)

/-- The mutation `conn.count -= count` seen through the pool: the stored count
    of the entry under `uri` becomes `v`. -/
def poolSetCount (pool : List (String × Int)) (uri : String) (v : Int) :
    List (String × Int) :=
  pool.map (fun e => if e.fst == uri then (uri, v) else e)

/-- The observable outcome of `removeConnection`: the pool after the call,
    whether `conn.conn.removeAllListeners()` ran, whether `conn.conn.close` was
    invoked on the shared connection, and how many times the caller's callback
    fires (the close callback assumed to complete, per the cooperative model). -/
structure RemoveConnResult where
  pool : List (String × Int)
  listenersRemoved : Bool
  closeCalled : Bool
  callbackCount : Nat
deriving DecidableEq, Repr

/-- removeConnection (sdk/mq/lib.js lines 161-177).  A missing entry completes
    the callback on the next tick.  Otherwise the count is decremented, the
    entry is deleted from the pool when the decremented count is `<= 0` — and
    the listener removal and the `close` of the shared connection run
    unconditionally, whatever the remaining count. -/
def removeConnection (connPool : List (String × Int)) (hostUri : String) (count : Int) :
    RemoveConnResult :=
  match poolGet connPool hostUri with
  | none =>
    { pool := connPool, listenersRemoved := false, closeCalled := false, callbackCount := 1 }
  | some c =>
    let c2 := c - count
    let pool2 := if c2 ≤ 0 then poolDelete connPool hostUri else poolSetCount connPool hostUri c2
    { pool := pool2, listenersRemoved := true, closeCalled := true, callbackCount := 1 }

/-! ## The data-queue factory (sdk/mq/lib.js lines 195-264) -/

/-- The manager `Options` record (sdk/mq/lib.js).  Fields JS allows to be
    `undefined` are `Option`s; `id` and `name` are strings whose emptiness the
    factory checks through JS truthiness.  `prefetch` is an `Int` (the
    `Number.isInteger` test of the source is unrepresentable for a
    non-integer). -/
structure Options where
  unitId : Option String := none
  unitCode : Option String := none
  id : String
  name : String
  prefetch : Option Int := none
  persistent : Option Bool := none
  sharedPrefix : Option String := none
deriving DecidableEq, Repr

def DEF_PREFETCH : Int := 100

def DEF_PERSISTENT : Bool := false

/-- The option record `qOpts` the factory passes to each queue constructor. -/
structure DataQueueOpts where
  name : String
  isRecv : Bool
  reliable : Bool
  broadcast : Bool
  prefetch : Int
  persistent : Bool
  sharedPrefix : Option String
deriving DecidableEq, Repr

/-- The factory's return object: the application manager gets no `ctrl` queue
    and the network manager gets no `dldata-resp` queue (sdk/mq/lib.js lines
    247 and 255). -/
structure DataMqQueues where
  uldata : DataQueueOpts
  dldata : DataQueueOpts
  dldataResp : Option DataQueueOpts
  dldataResult : DataQueueOpts
  ctrl : Option DataQueueOpts
deriving DecidableEq, Repr

/-- newDataQueues (sdk/mq/lib.js lines 195-264), checks in source order.  The
    `instanceof`/`typeof` checks are unrepresentable in the typed embedding.
    Note the prefetch validation of line 214: the lower bound it enforces is
    `opts.prefetch < 0`, although the error text says "between 1 and 65535";
    and line 235 defaults the prefetch with the JS `||` operator, which also
    replaces an explicit `0`. -/
def newDataQueues (opts : Options) (pfx : String) (isNetwork : Bool) :
    Except String DataMqQueues :=
  if pfx.isEmpty then
    .error "`prefix` is not a string"
  else if opts.id.isEmpty then
    .error "`opts.id` is not a non-empty string"
  else if opts.name.isEmpty then
    .error "`opts.name` is not a non-empty string"
  else if (match opts.prefetch with
           | some p => decide (p < 0) || decide (p > 65535)
           | none => false) then
    .error "`opts.prefetch` is not an integer between 1 and 65535"
  else if strTruthy opts.unitId != strTruthy opts.unitCode then
    .error "`opts.unitId` and `opts.unitCode` must both empty or non-empty"
  else
    let qNamePfx :=
      pfx ++ "." ++ (if strTruthy opts.unitCode then jsStr opts.unitCode else "_") ++
      "." ++ opts.name
    let base : DataQueueOpts :=
      { name := qNamePfx ++ ".uldata"
        isRecv := !isNetwork
        reliable := true
        broadcast := false
        prefetch :=
          match opts.prefetch with
          | none => DEF_PREFETCH
          | some p => if p == 0 then DEF_PREFETCH else p
        persistent :=
          match opts.persistent with
          | none => DEF_PERSISTENT
          | some b => b
        sharedPrefix := opts.sharedPrefix }
    .ok
      { uldata := base
        dldata := { base with name := qNamePfx ++ ".dldata", isRecv := isNetwork }
        dldataResp :=
          if isNetwork then none
          else some { base with name := qNamePfx ++ ".dldata-resp", isRecv := !isNetwork }
        dldataResult := { base with name := qNamePfx ++ ".dldata-result", isRecv := !isNetwork }
        ctrl :=
          if isNetwork then some { base with name := qNamePfx ++ ".ctrl", isRecv := true }
          else none }

/-! ## NetworkMgr (the network-manager module of the SDK) -/

/-- Manager status, from sdk/mq/constants.js `MgrStatus`. -/
inductive MgrStatus
  | NotReady
  | Ready
deriving DecidableEq, Repr

/-- A snapshot of the statuses of the four queues the network manager owns. -/
structure NetQueueStatuses where
  uldata : Status
  dldata : Status
  dldataResult : Status
  ctrl : Status
deriving DecidableEq, Repr

/-- The readiness conjunction of NetworkMgr#gmqStatusHandler (sdk/mq/lib.js
    lines 598-608): Ready exactly when all four owned queues report
    Connected. -/
def netAggregate (q : NetQueueStatuses) : MgrStatus :=
  if q.uldata == Status.Connected && q.dldata == Status.Connected &&
     q.dldataResult == Status.Connected && q.ctrl == Status.Connected then
    MgrStatus.Ready
  else
    MgrStatus.NotReady

/-- NetworkMgr#gmqStatusHandler (sdk/mq/lib.js lines 597-615): recompute the
    aggregate from the current queue statuses; if it equals the stored manager
    status, return without emitting; otherwise store it and emit it.  The
    result is the stored status after the call and the emitted event, if
    any. -/
def gmqStatusHandler (cur : MgrStatus) (q : NetQueueStatuses) : MgrStatus × Option MgrStatus :=
  let s := netAggregate q
  if cur == s then (cur, none) else (s, some s)

/-- A sequence of queue-status events fed through NetworkMgr#gmqStatusHandler:
    the stored status after all events, and the list of manager status events
    emitted along the way. -/
def runStatusEvents (cur : MgrStatus) : List NetQueueStatuses → MgrStatus × List MgrStatus
  | [] => (cur, [])
  | q :: rest =>
    let r := gmqStatusHandler cur q
    let rec2 := runStatusEvents r.fst rest
    (rec2.fst, (match r.snd with | none => [] | some s => [s]) ++ rec2.snd)

/-- The user handlers of the network manager (`NetMgrMsgHandlers`). -/
inductive UserHandler
  | onDlData
  | onCtrl
deriving DecidableEq, Repr

/-- A settlement issued on the source queue. -/
inductive Settlement
  | ack
  | nack
deriving DecidableEq, Repr

/-- The observable outcome of one NetworkMgr#gmqMsgHandler call: which user
    handlers were invoked and which settlements were issued. -/
structure MsgHandlerResult where
  invoked : List UserHandler
  settlements : List Settlement
deriving DecidableEq, Repr

/-- NetworkMgr#gmqMsgHandler (sdk/mq/lib.js lines 620-652).  `JSON.parse` is a
    JS builtin, so its success is an oracle parameter `parseOk` (the `catch`
    branch acks and returns without touching any user handler); `handlerErr`
    is whether the user handler's completion callback reports an error.  After
    a successful parse the handler dispatches on the source queue's name:
    `dldata` and `ctrl` are the two receiver queues of the manager; any other
    name falls through to the final `return` with no settlement. -/
def gmqMsgHandler (dldataName ctrlName queueName : String) (parseOk : Bool)
    (handlerErr : Bool) : MsgHandlerResult :=
  if !parseOk then
    { invoked := [], settlements := [Settlement.ack] }
  else if queueName == dldataName then
    { invoked := [UserHandler.onDlData]
      settlements := [if handlerErr then Settlement.nack else Settlement.ack] }
  else if queueName == ctrlName then
    { invoked := [UserHandler.onCtrl]
      settlements := [if handlerErr then Settlement.nack else Settlement.ack] }
  else
    { invoked := [], settlements := [] }

/-- The `DataMqStatus` record (sdk/mq/lib.js lines 14-23). -/
structure DataMqStatus where
  uldata : Status
  dldata : Status
  dldataResp : Status
  dldataResult : Status
  ctrl : Status
deriving DecidableEq, Repr

/-- NetworkMgr.mqStatus (sdk/mq/lib.js lines 470-478): the four owned queues
    report their live statuses and the `dldataResp` field is the constant
    `Status.Closed` — the network manager never creates a dldata-resp queue. -/
def mqStatus (q : NetQueueStatuses) : DataMqStatus :=
  { uldata := q.uldata
    dldata := q.dldata
    dldataResp := Status.Closed
    dldataResult := q.dldataResult
    ctrl := q.ctrl }

end SdkMq

/-! # Theorems -/

open GeneralMq SdkMq

/-- C1: sdk/mq/lib.js `removeConnection`, evaluated at the pool state two
managers sharing one host produce (reference count 8), removing one manager's
count of 4: the decremented count 4 is still positive and the entry stays in
the pool, yet the call removes the shared connection's listeners and closes
it.  This contradicts the claim (and the manager's own documentation, "The
underlying connection will be closed when there are no queues use it"): only
the pool-entry deletion is guarded by the zero check; the listener clearing
and the close run unconditionally. -/
theorem removeConnection_closes_while_count_positive :
    removeConnection [("mqtt://localhost/", 8)] "mqtt://localhost/" 4 =
      { pool := [("mqtt://localhost/", 4)]
        listenersRemoved := true
        closeCalled := true
        callbackCount := 1 } := by
  rfl

/-- C6: for every MQTT receiver queue (isRecv = true) on which no message
handler has been installed, `connect()` throws the NoMsgHandler error before
any state mutation: the status is unchanged, no packet handler is registered
and no status event is emitted — the queue does not start connecting. -/
theorem mqtt_connect_without_handler_fails (o : MqttStoredOpts) (st : MqttQueueState)
    (h1 : o.isRecv = true) (h2 : st.hasMsgHandler = false) :
    mqttQueueConnect o st =
      { thrown := some GmqError.NoMsgHandler
        state := st
        registered := none
        emitted := [] } := by
  simp [mqttQueueConnect, h1, h2]

/-- Witness for C6 at a concrete receiver queue in the Closed state. -/
theorem mqtt_connect_without_handler_fails_witness :
    mqttQueueConnect ⟨"name", true, true, false, 1000, none⟩ ⟨Status.Closed, false⟩ =
      { thrown := some GmqError.NoMsgHandler
        state := ⟨Status.Closed, false⟩
        registered := none
        emitted := [] } :=
  mqtt_connect_without_handler_fails ⟨"name", true, true, false, 1000, none⟩
    ⟨Status.Closed, false⟩ rfl rfl

/-- C7 counterexample: a receiver queue (isRecv = true) whose status is Closed.
The claim says `sendMsg` fails with QueueIsReceiver whenever isRecv is true,
but the source checks the status first (mqtt-queue.js lines 229-238), so this
call fails with NotConnected, a different error. -/
theorem mqtt_sendMsg_receiver_closed_gets_NotConnected :
    mqttQueueSendMsg ⟨"name", true, true, false, 1000, none⟩ ⟨Status.Closed, true⟩ =
      SendOutcome.callbackErr GmqError.NotConnected ∧
    SendOutcome.callbackErr (GmqError.NotConnected) ≠
      SendOutcome.callbackErr (GmqError.QueueIsReceiver) := by
  exact ⟨rfl, by decide⟩

/-- C7 amended: `sendMsg` fails with NotConnected whenever the queue's status
is not Connected (whatever the direction); it fails with QueueIsReceiver when
the queue is Connected and was constructed with isRecv = true (the
NotConnected check takes precedence); and the payload reaches publish exactly
when the queue is a Connected sender. -/
theorem mqtt_sendMsg_error_cases (o : MqttStoredOpts) (st : MqttQueueState) :
    (st.status ≠ Status.Connected →
      mqttQueueSendMsg o st = SendOutcome.callbackErr GmqError.NotConnected) ∧
    (st.status = Status.Connected → o.isRecv = true →
      mqttQueueSendMsg o st = SendOutcome.callbackErr GmqError.QueueIsReceiver) ∧
    (mqttQueueSendMsg o st =
        SendOutcome.published (MqttStoredOpts.topic o) (if o.reliable then 1 else 0) ↔
      st.status = Status.Connected ∧ o.isRecv = false) := by
  refine ⟨fun h => by simp [mqttQueueSendMsg, h], fun h1 h2 => by simp [mqttQueueSendMsg, h1, h2], ?_⟩
  constructor
  · intro h
    unfold mqttQueueSendMsg at h
    by_cases hs : st.status = Status.Connected
    · by_cases hr : o.isRecv = true
      · simp [hs, hr] at h
      · exact ⟨hs, by simpa using hr⟩
    · simp [hs] at h
  · rintro ⟨hs, hr⟩
    simp [mqttQueueSendMsg, hs, hr]

/-- Witness for C7's amended theorem at a Connected sender and at a Closed
receiver. -/
theorem mqtt_sendMsg_error_cases_witness :
    mqttQueueSendMsg ⟨"name", false, true, false, 1000, none⟩ ⟨Status.Connected, false⟩ =
      SendOutcome.published "name" 1 ∧
    mqttQueueSendMsg ⟨"name", true, true, false, 1000, none⟩ ⟨Status.Connecting, true⟩ =
      SendOutcome.callbackErr GmqError.NotConnected := by
  constructor
  · exact ((mqtt_sendMsg_error_cases ⟨"name", false, true, false, 1000, none⟩
      ⟨Status.Connected, false⟩).2.2).2 ⟨rfl, rfl⟩
  · exact (mqtt_sendMsg_error_cases ⟨"name", true, true, false, 1000, none⟩
      ⟨Status.Connecting, true⟩).1 (by decide)

/-- C8: the MQTT topic function: a unicast receiver (isRecv and not broadcast)
with a configured shared prefix uses sharedPrefix ++ name; every other case
(senders, and broadcast receivers) uses the bare queue name
(mqtt-queue.js lines 351-356). -/
theorem mqtt_topic_shape (o : MqttStoredOpts) (sp : String) :
    (o.isRecv = true → o.broadcast = false → o.sharedPrefix = some sp →
      MqttStoredOpts.topic o = sp ++ o.name) ∧
    (o.isRecv = false ∨ o.broadcast = true → MqttStoredOpts.topic o = o.name) := by
  constructor
  · intro h1 h2 h3
    simp [MqttStoredOpts.topic, h1, h2, h3, jsStr]
  · intro h
    rcases h with h | h <;> simp [MqttStoredOpts.topic, h]

/-- Witness for C8 at a unicast receiver with the reference shared prefix and
at a sender. -/
theorem mqtt_topic_shape_witness :
    MqttStoredOpts.topic ⟨"name", true, true, false, 1000, some "$share/general-mq/"⟩ =
      "$share/general-mq/" ++ "name" ∧
    MqttStoredOpts.topic ⟨"name", false, true, false, 1000, some "$share/general-mq/"⟩ =
      "name" := by
  constructor
  · exact (mqtt_topic_shape ⟨"name", true, true, false, 1000, some "$share/general-mq/"⟩
      "$share/general-mq/").1 rfl rfl rfl
  · exact (mqtt_topic_shape ⟨"name", false, true, false, 1000, some "$share/general-mq/"⟩
      "$share/general-mq/").2 (Or.inl rfl)

/-- C5: the network manager's message router (sdk/mq/lib.js lines 620-652) on
a message delivered by one of its receiver queues (dldata or ctrl): a payload
that fails JSON parsing is acked and dropped with no user handler invoked;
a payload that parses invokes exactly one user handler and issues exactly one
settlement — nack when the handler's completion callback reports an error,
ack otherwise. -/
theorem netMgr_msg_routing (d c q : String) (parseOk handlerErr : Bool)
    (h : q = d ∨ q = c) :
    (parseOk = false → gmqMsgHandler d c q parseOk handlerErr =
      { invoked := [], settlements := [Settlement.ack] }) ∧
    (parseOk = true →
      (gmqMsgHandler d c q parseOk handlerErr).invoked.length = 1 ∧
      (gmqMsgHandler d c q parseOk handlerErr).settlements =
        [if handlerErr then Settlement.nack else Settlement.ack]) ∧
    (gmqMsgHandler d c q parseOk handlerErr).settlements.length = 1 := by
  by_cases hp : parseOk = true
  · by_cases hd : q = d
    · refine ⟨fun hf => by simp [hf] at hp, fun _ => ?_, ?_⟩ <;>
        simp [gmqMsgHandler, hp, hd]
    · have hc : q = c := h.resolve_left hd
      subst hc
      refine ⟨fun hf => by simp [hf] at hp, fun _ => ?_, ?_⟩ <;>
        simp [gmqMsgHandler, hp, hd]
  · have hp2 : parseOk = false := by simpa using hp
    refine ⟨fun _ => by simp [gmqMsgHandler, hp2], fun ht => by simp [ht] at hp2, ?_⟩
    simp [gmqMsgHandler, hp2]

/-- Witness for C5: a ctrl-queue message whose handler reports an error is
nacked once, and a malformed payload on the dldata queue is acked with no
handler invoked. -/
theorem netMgr_msg_routing_witness :
    (gmqMsgHandler "q.dldata" "q.ctrl" "q.ctrl" true true).settlements =
      [Settlement.nack] ∧
    gmqMsgHandler "q.dldata" "q.ctrl" "q.dldata" false true =
      { invoked := [], settlements := [Settlement.ack] } := by
  constructor
  · exact ((netMgr_msg_routing "q.dldata" "q.ctrl" "q.ctrl" true true
      (Or.inr rfl)).2.1 rfl).2
  · exact (netMgr_msg_routing "q.dldata" "q.ctrl" "q.dldata" false true
      (Or.inl rfl)).1 rfl

/-- Helper for C4: feeding any event sequence through the status handler never
emits the same manager status twice in a row, and the first emission differs
from the initial stored status. -/
theorem runStatusEvents_chain (evs : List NetQueueStatuses) (cur : MgrStatus) :
    List.Chain' (fun a b => a ≠ b) (cur :: (runStatusEvents cur evs).snd) := by
  induction evs generalizing cur with
  | nil => simp [runStatusEvents]
  | cons qe rest ih =>
    by_cases h2 : cur = netAggregate qe
    · have hrw : (runStatusEvents cur (qe :: rest)).snd =
          (runStatusEvents cur rest).snd := by
        simp [runStatusEvents, gmqStatusHandler, h2]
      rw [hrw]
      exact ih cur
    · have hrw : (runStatusEvents cur (qe :: rest)).snd =
          netAggregate qe :: (runStatusEvents (netAggregate qe) rest).snd := by
        simp [runStatusEvents, gmqStatusHandler, h2]
      rw [hrw]
      exact List.chain'_cons.mpr ⟨h2, ih (netAggregate qe)⟩

/-- C4: the network manager's aggregated status is Ready exactly when all four
owned queues (uldata, dldata, dldata-result, ctrl) report Connected, and
NotReady otherwise; the status handler emits an event exactly when the
aggregate differs from the stored status, it emits the new aggregate, and over
any sequence of queue-status events no two consecutive emissions are equal
(nor does the first emission repeat the initial status). -/
theorem netMgr_status_aggregation (cur : MgrStatus) (q : NetQueueStatuses)
    (evs : List NetQueueStatuses) :
    (netAggregate q = MgrStatus.Ready ↔
      (q.uldata = Status.Connected ∧ q.dldata = Status.Connected ∧
       q.dldataResult = Status.Connected ∧ q.ctrl = Status.Connected)) ∧
    ((gmqStatusHandler cur q).snd ≠ none ↔ netAggregate q ≠ cur) ∧
    ((gmqStatusHandler cur q).snd = none ∨
      gmqStatusHandler cur q = (netAggregate q, some (netAggregate q))) ∧
    List.Chain' (fun a b => a ≠ b) (cur :: (runStatusEvents cur evs).snd) := by
  refine ⟨?_, ?_, ?_, runStatusEvents_chain evs cur⟩
  · constructor
    · intro h
      by_cases hb : (q.uldata == Status.Connected && q.dldata == Status.Connected &&
          q.dldataResult == Status.Connected && q.ctrl == Status.Connected) = true
      · simp only [Bool.and_eq_true, beq_iff_eq] at hb
        exact ⟨hb.1.1.1, hb.1.1.2, hb.1.2, hb.2⟩
      · unfold netAggregate at h
        rw [if_neg hb] at h
        exact MgrStatus.noConfusion h
    · intro hcon
      simp [netAggregate, hcon.1, hcon.2.1, hcon.2.2.1, hcon.2.2.2]
  · by_cases h : cur = netAggregate q
    · simp [gmqStatusHandler, h]
    · simp [gmqStatusHandler, h]
      exact fun he => h he.symm
  · by_cases h : cur = netAggregate q
    · simp [gmqStatusHandler, h]
    · right
      simp [gmqStatusHandler, h]

/-- C10: NetworkMgr.mqStatus reports the constant Status.Closed in the
dldataResp field whatever the statuses of the owned queues, and the live
statuses of the four owned queues in the other four fields; correspondingly
the factory creates no dldata-resp queue for a network manager. -/
theorem netMgr_mqStatus_shape (q : NetQueueStatuses) (o : Options) (pfx : String)
    (qs : DataMqQueues) (h : newDataQueues o pfx true = Except.ok qs) :
    (mqStatus q).dldataResp = Status.Closed ∧
    (mqStatus q).uldata = q.uldata ∧
    (mqStatus q).dldata = q.dldata ∧
    (mqStatus q).dldataResult = q.dldataResult ∧
    (mqStatus q).ctrl = q.ctrl ∧
    qs.dldataResp = none := by
  refine ⟨rfl, rfl, rfl, rfl, rfl, ?_⟩
  unfold newDataQueues at h
  repeat' split at h
  all_goals first
    | exact Except.noConfusion h
    | (cases h; rfl)
    | simp_all

/-- Witness for C10 at a concrete status snapshot and concrete factory
options. -/
theorem netMgr_mqStatus_shape_witness :
    (mqStatus ⟨Status.Connected, Status.Connecting, Status.Disconnected, Status.Connected⟩).dldataResp =
      Status.Closed ∧
    (newDataQueues ⟨none, none, "id", "code", none, none, none⟩ "broker.network" true =
      Except.ok
        { uldata := ⟨"broker.network._.code.uldata", false, true, false, 100, false, none⟩
          dldata := ⟨"broker.network._.code.dldata", true, true, false, 100, false, none⟩
          dldataResp := none
          dldataResult := ⟨"broker.network._.code.dldata-result", false, true, false, 100, false, none⟩
          ctrl := some ⟨"broker.network._.code.ctrl", true, true, false, 100, false, none⟩ }) := by
  have h : newDataQueues ⟨none, none, "id", "code", none, none, none⟩ "broker.network" true =
      Except.ok
        { uldata := ⟨"broker.network._.code.uldata", false, true, false, 100, false, none⟩
          dldata := ⟨"broker.network._.code.dldata", true, true, false, 100, false, none⟩
          dldataResp := none
          dldataResult := ⟨"broker.network._.code.dldata-result", false, true, false, 100, false, none⟩
          ctrl := some ⟨"broker.network._.code.ctrl", true, true, false, 100, false, none⟩ } := by
    rfl
  exact ⟨(netMgr_mqStatus_shape
    ⟨Status.Connected, Status.Connecting, Status.Disconnected, Status.Connected⟩
    ⟨none, none, "id", "code", none, none, none⟩ "broker.network" _ h).1, h⟩

/-- Helper for C3: in every reachable MqttConnection state the raw client
exists or the status is Closed, and the status is never left at Closing (the
close runs to completion in the cooperative model). -/
theorem mqttReachable_inv (s : MqttConnState) (h : MqttReachable s) :
    (s.hasConn = true ∨ s.status = Status.Closed) ∧ s.status ≠ Status.Closing := by
  induction h with
  | init => exact ⟨Or.inr rfl, by simp [mqttInit]⟩
  | step s e hs ih =>
    cases e with
    | connectCall =>
      by_cases hc : s.status != Status.Closed && s.status != Status.Closing
      · simpa [mqttConnStep, hc] using ih
      · simp [mqttConnStep, hc]
    | connectEvt =>
      by_cases hc : s.hasConn = true
      · refine ⟨Or.inl ?_, ?_⟩ <;> simp [mqttConnStep, hc]
      · simpa [mqttConnStep, hc] using ih
    | closeEvt =>
      by_cases hc : s.status != Status.Closing && s.status != Status.Closed
      · simp [mqttConnStep, hc]
      · have h2 : s.status = Status.Closing ∨ s.status = Status.Closed := by
          rcases Decidable.em (s.status = Status.Closing) with h3 | h3
          · exact Or.inl h3
          · rcases Decidable.em (s.status = Status.Closed) with h4 | h4
            · exact Or.inr h4
            · exact absurd (by simp [h3, h4]) hc
        have h3 : s.status = Status.Closed := h2.resolve_left ih.2
        refine ⟨Or.inr ?_, ?_⟩ <;> simp [mqttConnStep, hc, h3]
    | reconnectEvt =>
      by_cases hc : s.status != Status.Closing && s.status != Status.Closed
      · have h4 : ¬s.status = Status.Closed := by
          intro he
          simp [he] at hc
        refine ⟨Or.inl ?_, ?_⟩ <;> simp [mqttConnStep, hc]
        exact ih.1.resolve_right h4
      · simpa [mqttConnStep, hc] using ih
  | close s hs ih =>
    by_cases hc : s.hasConn = true
    · refine ⟨Or.inr ?_, ?_⟩ <;> simp [mqttConnClose, hc]
    · have h3 : s.status = Status.Closed := by
        rcases ih.1 with h4 | h4
        · exact absurd h4 hc
        · exact h4
      refine ⟨Or.inr ?_, ?_⟩ <;> simp [mqttConnClose, hc, h3]

/-- C3 counterexample: the AMQP connection state reached by calling
`connect()` on a fresh connection while the dial is still in flight — the
status is Connecting and the raw connection is still null.  `close()` from
this reachable state fires the callback once but leaves the status
Connecting, because the null-connection short circuit (the AMQP close, lines
126-133 of the driver) returns before any state change.  So close() does not
always drive the state to Closed. -/
theorem amqp_close_while_dialing_stays_connecting :
    AmqpReachable ⟨Status.Connecting, false, true⟩ ∧
    amqpClose ⟨Status.Connecting, false, true⟩ = (⟨Status.Connecting, false, true⟩, 1) ∧
    Status.Connecting ≠ Status.Closed := by
  refine ⟨?_, rfl, by decide⟩
  exact AmqpReachable.step amqpInit AmqpEvent.connectCall AmqpReachable.init

/-- C3 amended: `close()` always invokes the supplied callback exactly once.
For every reachable MQTT connection state, close() drives the status to
Closed.  For AMQP, close() drives the status to Closed whenever the raw
connection exists; when it does not (the initial Closed state, or an AMQP
connection whose dial is still in flight) the state is left unchanged, so an
AMQP close during a pending dial leaves the status Connecting. -/
theorem connection_close_behaviour (a : AmqpConnState) (m : MqttConnState)
    (hm : MqttReachable m) :
    (amqpClose a).snd = 1 ∧
    (a.hasConn = true → (amqpClose a).fst.status = Status.Closed) ∧
    (a.hasConn = false → (amqpClose a).fst = a) ∧
    (mqttConnClose m).snd = 1 ∧
    (mqttConnClose m).fst.status = Status.Closed := by
  refine ⟨?_, ?_, ?_, ?_, ?_⟩
  · unfold amqpClose
    by_cases hc : a.hasConn = true <;> simp [hc]
  · intro hc
    simp [amqpClose, hc]
  · intro hc
    simp [amqpClose, hc]
  · unfold mqttConnClose
    by_cases hc : m.hasConn = true <;> simp [hc]
  · by_cases hc : m.hasConn = true
    · simp [mqttConnClose, hc]
    · have h3 : m.status = Status.Closed :=
        ((mqttReachable_inv m hm).1).resolve_left hc
      simp [mqttConnClose, hc, h3]

/-- Witness for C3's amended theorem: a dialing AMQP connection and the
freshly constructed MQTT connection. -/
theorem connection_close_behaviour_witness :
    (amqpClose ⟨Status.Connecting, false, true⟩).snd = 1 ∧
    (mqttConnClose mqttInit).fst.status = Status.Closed := by
  have h := connection_close_behaviour ⟨Status.Connecting, false, true⟩ mqttInit
    MqttReachable.init
  exact ⟨h.1, h.2.2.2.2⟩

/-- Helper for C9: JS endsWith holds for any string followed by the tested
suffix. -/
theorem jsEndsWith_append (p n : String) : jsEndsWith (p ++ n) n = true := by
  simp [jsEndsWith]

/-- Helper for C9: prepending the text "undefined" leaves a non-empty
string. -/
theorem append_undefined_isEmpty_false (n : String) :
    ("undefined" ++ n).isEmpty = false := by
  rw [Bool.eq_false_iff]
  intro h
  have h2 : ("undefined" ++ n) = "" := (String.isEmpty_iff _).mp h
  have h3 := congrArg String.data h2
  simp at h3

/-- C9: an MqttQueue may be constructed as a unicast receiver (isRecv true,
broadcast false) with sharedPrefix left undefined: the constructor accepts the
options (its sharedPrefix check fires only when the field is defined), topic()
evaluates to the JS string "undefined" concatenated with the queue name, and
connect() from the Closed state (with a message handler installed) registers a
packet handler under that topic — the registration passes addPacketHandler's
validation because the topic still ends with the name — and the inner connect
subscribes to that same "undefined"-prefixed topic instead of failing or
falling back to the bare name. -/
theorem mqtt_unicast_undefined_sharedPrefix (name : String) (rel : Bool)
    (h : queuePattern name = true) :
    mqttQueueNew ⟨name, true, rel, false, none, none⟩ =
      Except.ok ⟨name, true, rel, false, 1000, none⟩ ∧
    MqttStoredOpts.topic ⟨name, true, rel, false, 1000, none⟩ = "undefined" ++ name ∧
    mqttQueueConnect ⟨name, true, rel, false, 1000, none⟩ ⟨Status.Closed, true⟩ =
      { thrown := none
        state := ⟨Status.Connecting, true⟩
        registered := some (name, "undefined" ++ name, rel)
        emitted := [Status.Connecting] } ∧
    addPacketHandler [] name ("undefined" ++ name) rel =
      Except.ok [(name, ⟨"undefined" ++ name, if rel then 1 else 0⟩)] ∧
    (mqttInnerConnect ⟨name, true, rel, false, 1000, none⟩ ⟨Status.Connecting, true⟩
        Status.Connected true true).subscribed =
      some ("undefined" ++ name, if rel then 1 else 0) := by
  refine ⟨?_, ?_, ?_, ?_, ?_⟩
  · simp [mqttQueueNew, h]
  · simp [MqttStoredOpts.topic, jsStr]
  · simp [mqttQueueConnect, MqttStoredOpts.topic, jsStr]
  · simp [addPacketHandler, h, append_undefined_isEmpty_false, jsEndsWith_append, mapSet]
  · simp [mqttInnerConnect, MqttStoredOpts.topic, jsStr]

/-- Witness for C9 at the queue name "name". -/
theorem mqtt_unicast_undefined_sharedPrefix_witness :
    MqttStoredOpts.topic ⟨"name", true, true, false, 1000, none⟩ = "undefinedname" ∧
    addPacketHandler [] "name" ("undefined" ++ "name") true =
      Except.ok [("name", ⟨"undefined" ++ "name", 1⟩)] := by
  have h := mqtt_unicast_undefined_sharedPrefix "name" true (by decide)
  exact ⟨h.2.1, h.2.2.2.1⟩

/-- C2 counterexample: the data-queue factory, called with an otherwise valid
options record whose prefetch field is the integer 0, succeeds — the
validation of sdk/mq/lib.js line 214 lower-bounds the value with `< 0`, so 0
passes — and the constructed queue options carry prefetch 100: line 235
defaults the value with the JS `||` operator, which silently replaces 0 by
DEF_PREFETCH.  The claim that prefetch = 0 is rejected like 65536 is
therefore false. -/
theorem newDataQueues_accepts_prefetch_zero :
    (Except.map (fun qs => qs.uldata.prefetch)
      (newDataQueues ⟨none, none, "id", "code", some 0, none, none⟩ "broker.network" true) =
      Except.ok 100) ∧
    (Except.map (fun qs => qs.uldata.prefetch)
      (newDataQueues ⟨none, none, "id", "code", some 0, none, none⟩ "broker.network" true) ≠
      Except.error "`opts.prefetch` is not an integer between 1 and 65535") := by
  refine ⟨rfl, fun h => Except.noConfusion h⟩

/-- C2 amended: for a defined prefetch value p, the factory rejects p exactly
when it is negative or above 65535 (so 65536 still fails), while p = 0 passes
validation and is silently replaced by the default 100 in every constructed
queue option record; an accepted non-zero p is passed through unchanged. -/
theorem newDataQueues_prefetch_behaviour (o : Options) (pfx : String) (isNet : Bool)
    (p : Int) (hp : o.prefetch = some p) :
    ((p < 0 ∨ p > 65535) → ∀ qs, newDataQueues o pfx isNet ≠ Except.ok qs) ∧
    (∀ qs, newDataQueues o pfx isNet = Except.ok qs →
      qs.uldata.prefetch = (if p = 0 then DEF_PREFETCH else p)) := by
  constructor
  · intro hb qs hok
    unfold newDataQueues at hok
    rw [hp] at hok
    repeat' split at hok
    all_goals simp_all
  · intro qs hok
    unfold newDataQueues at hok
    rw [hp] at hok
    repeat' split at hok
    all_goals first
      | exact Except.noConfusion hok
      | (rw [Except.ok.injEq] at hok; subst hok; simp_all)

/-- Witness for C2's amended theorem: prefetch 65536 is rejected, prefetch 7
is passed through. -/
theorem newDataQueues_prefetch_behaviour_witness :
    (newDataQueues ⟨none, none, "id", "code", some 65536, none, none⟩ "broker.network" true ≠
      Except.ok
        { uldata := ⟨"broker.network._.code.uldata", false, true, false, 100, false, none⟩
          dldata := ⟨"broker.network._.code.dldata", true, true, false, 100, false, none⟩
          dldataResp := none
          dldataResult := ⟨"broker.network._.code.dldata-result", false, true, false, 100, false, none⟩
          ctrl := some ⟨"broker.network._.code.ctrl", true, true, false, 100, false, none⟩ }) ∧
    ((newDataQueues ⟨none, none, "id", "code", some 7, none, none⟩ "broker.network" true).map
      (fun qs => qs.uldata.prefetch) = Except.ok 7) := by
  constructor
  · exact (newDataQueues_prefetch_behaviour ⟨none, none, "id", "code", some 65536, none, none⟩
      "broker.network" true 65536 rfl).1 (by decide) _
  · rfl
